import Mathlib

/-!
Shallow embedding of `src/index.ts` of the threeJsModeTray repository:
a lifecycle wrapper that initializes a three.js scene, loads a GLTF model,
plays its animations, handles container resizes, and tears everything down.

Modelling conventions:
* the module's process-wide mutable handles (`scene`, `camera`, `renderer`,
  `controls`, `model`, `mixer`, `resizeObserver`) become `Option` fields of
  an explicit `ModuleState`; `undefined` is `none`;
* numbers are rationals (`ℚ`), DOM pixel sizes are naturals;
* a JS statement that would throw a `TypeError` (property access on an
  undefined handle) is modelled by `Except.error`;
* external collaborators (WebGL rasterization, orbit-damping math, GLTF
  decoding) are abstracted to observable counters/fields: `controls.update()`
  bumps an update counter, `renderer.render` bumps a render counter,
  `mixer.update dt` advances the mixer clock, `loader.load path cb` records
  `path` in `pendingLoads` and the decode success callback is the separate
  `loadComplete` transition;
* `requestAnimationFrame(animate)` is modelled by the `Bool` that `animate`
  returns: `true` means a further tick was scheduled.
-/

/-- `positionClass` from the source: an x/y/z coordinate triple. -/
structure positionClass where
  x : ℚ
  y : ℚ
  z : ℚ
deriving Repr, DecidableEq

/-- `propsClass` from the source: the configuration given to `init`. -/
structure propsClass where
  cameraPosition : positionClass
  modelPath : String
  scale : ℚ
  position : positionClass
deriving Repr, DecidableEq

/-- The mount element: observable child count and content-box size. -/
structure HTMLElement where
  childCount : Nat
  clientWidth : Nat
  clientHeight : Nat
deriving Repr, DecidableEq

/-- `THREE.PerspectiveCamera`: projection parameters and position.
`projectionVersion` counts `updateProjectionMatrix()` calls. -/
structure PerspectiveCamera where
  fov : ℚ
  aspect : ℚ
  near : ℚ
  far : ℚ
  position : positionClass
  projectionVersion : Nat
deriving Repr, DecidableEq

/-- `THREE.WebGLRenderer`: construction flags, drawable-surface size set by
`setSize`, a counter of `render` calls, and disposal state. -/
structure WebGLRenderer where
  antialias : Bool
  alpha : Bool
  width : Nat
  height : Nat
  renders : Nat
  disposed : Bool
  contextLost : Bool
deriving Repr, DecidableEq

/-- `OrbitControls`: the settings `init` writes, the orbit target, a counter
of `update()` calls (the damping integration), and disposal state. -/
structure OrbitControls where
  enableDamping : Bool
  dampingFactor : ℚ
  screenSpacePanning : Bool
  minDistance : ℚ
  maxDistance : ℚ
  target : positionClass
  updates : Nat
  disposed : Bool
deriving Repr, DecidableEq

/-- `THREE.Group3D`: a loaded model subtree. `id` stands for JS object
identity; `scale` and `position` are its transform. -/
structure Group3D where
  id : Nat
  scale : positionClass
  position : positionClass
deriving Repr, DecidableEq

/-- An object attached to the scene: one of the two lights `init` creates,
or a loaded model subtree. -/
inductive Object3D where
  | ambientLight (color : Nat) (intensity : ℚ)
  | directionalLight (color : Nat) (intensity : ℚ) (position : positionClass)
  | modelGroup (g : Group3D)
deriving Repr, DecidableEq

/-- `THREE.Scene`: transparent-background flag and child list. -/
structure Scene where
  background : Option Nat
  children : List Object3D
deriving Repr, DecidableEq

/-- Playback loop mode of an animation action; `clipAction` creates actions
in the default `loopRepeat` mode. -/
inductive LoopMode where
  | loopRepeat
  | loopOnce
deriving Repr, DecidableEq

/-- An animation action obtained from `mixer.clipAction(clip)`. -/
structure AnimationAction where
  clip : String
  loop : LoopMode
  playing : Bool
deriving Repr, DecidableEq

/-- `THREE.AnimationMixer`: bound root, accumulated clock advanced by
`update(dt)`, and the actions cached for that root. -/
structure AnimationMixer where
  rootId : Nat
  time : ℚ
  actions : List AnimationAction
deriving Repr, DecidableEq

/-- A `ResizeObserver` handle: whether it is currently observing. -/
structure ResizeObserver where
  connected : Bool
deriving Repr, DecidableEq

/-- A decoded GLTF asset: the root subtree and the embedded clip names. -/
structure GLTF where
  scene : Group3D
  animations : List String
deriving Repr, DecidableEq

/-- The module's process-wide state: the seven mutable handles, plus the
observables needed by the contracts (paths whose load has been initiated,
the mount element's DOM state, and whether the renderer's canvas is
currently attached to the mount). -/
structure ModuleState where
  scene : Option Scene
  camera : Option PerspectiveCamera
  renderer : Option WebGLRenderer
  controls : Option OrbitControls
  model : Option Group3D
  mixer : Option AnimationMixer
  resizeObserver : Option ResizeObserver
  pendingLoads : List String
  mount : Option HTMLElement
  canvasAttached : Bool
deriving Repr, DecidableEq

/-- The state before the module has ever run: every handle undefined. -/
def initialState : ModuleState :=
  { scene := none, camera := none, renderer := none, controls := none
    model := none, mixer := none, resizeObserver := none
    pendingLoads := [], mount := none, canvasAttached := false }

/-- `loadModel(props)`: creates a `GLTFLoader` and calls
`loader.load(props.modelPath, cb)`. Initiating the asynchronous load is the
observable; the success callback is `loadComplete` below. -/
def loadModel (props : propsClass) (s : ModuleState) : ModuleState :=
  { s with pendingLoads := s.pendingLoads ++ [props.modelPath] }

/-- The success callback passed to `loader.load` in `loadModel`:
`model = gltf.scene`, scaled uniformly by `props.scale`, translated to
`props.position`, added to the scene; a fresh mixer is bound to the model
and every embedded clip's action is started. `scene.add` on an undefined
scene handle throws. -/
def loadComplete (props : propsClass) (gltf : GLTF) (s : ModuleState) :
    Except String ModuleState :=
  let m : Group3D :=
    { gltf.scene with
      scale := ⟨props.scale, props.scale, props.scale⟩
      position := props.position }
  match s.scene with
  | none => .error "TypeError: scene is undefined"
  | some sc =>
    let mx : AnimationMixer :=
      { rootId := m.id, time := 0
        actions := gltf.animations.map fun c =>
          { clip := c, loop := .loopRepeat, playing := true } }
    .ok { s with
          model := some m
          scene := some { sc with children := sc.children ++ [.modelGroup m] }
          mixer := some mx }

/-- `scene.remove(model)`: detaches the model subtree (identified by JS
object identity, here `Group3D.id`) from the child list. -/
def Scene.removeGroup (sc : Scene) (m : Group3D) : Scene :=
  { sc with
    children := sc.children.filter fun ob =>
      match ob with
      | .modelGroup g => !(g.id == m.id)
      | _ => true }

/-- Does the scene contain a model subtree with the given identity? -/
def Scene.hasGroup (sc : Scene) (i : Nat) : Bool :=
  sc.children.any fun ob =>
    match ob with
    | .modelGroup g => g.id == i
    | _ => false

/-- `clearCurrentModel`: if a model handle exists, stop all actions and
uncache the model root on the mixer (when a mixer exists), then remove the
model from the scene. `scene.remove` on an undefined scene handle throws.
Neither the model nor the mixer handle is reset. -/
def clearCurrentModel (s : ModuleState) : Except String ModuleState :=
  match s.model with
  | none => .ok s
  | some m =>
    let s1 :=
      match s.mixer with
      | none => s
      | some mx =>
        let stopped :=
          { mx with actions := mx.actions.map fun a : AnimationAction => { a with playing := false } }
        let uncached :=
          if stopped.rootId == m.id then { stopped with actions := [] } else stopped
        { s with mixer := some uncached }
    match s1.scene with
    | none => .error "TypeError: scene is undefined"
    | some sc => .ok { s1 with scene := some (sc.removeGroup m) }

/-- `animate`: one render-loop tick. If the controls, scene, or camera
handle is undefined it returns without calling `requestAnimationFrame`
(the returned `Bool` is whether a further tick was scheduled); otherwise it
reschedules, advances the controller's damping integration, advances the
mixer by the fixed 0.016 step when a mixer exists, and renders the frame
(`renderer.render` on an undefined renderer handle throws). -/
def animate (s : ModuleState) : Except String (ModuleState × Bool) :=
  match s.controls, s.scene, s.camera with
  | some ct, some _, some _ =>
    let s1 := { s with controls := some { ct with updates := ct.updates + 1 } }
    let s2 :=
      match s1.mixer with
      | none => s1
      | some mx => { s1 with mixer := some { mx with time := mx.time + 0.016 } }
    match s2.renderer with
    | none => .error "TypeError: renderer is undefined"
    | some r => .ok ({ s2 with renderer := some { r with renders := r.renders + 1 } }, true)
  | _, _, _ => .ok (s, false)

/-- `updateRendererSize(containerElement)`: no-op unless the element,
renderer and camera are all defined; otherwise sets the drawable surface to
the element's content box, sets `camera.aspect = width / height`, and
applies the projection update. -/
def updateRendererSize (el : HTMLElement) (s : ModuleState) : ModuleState :=
  match s.renderer, s.camera with
  | some r, some c =>
    let width := el.clientWidth
    let height := el.clientHeight
    { s with
      renderer := some { r with width := width, height := height }
      camera := some { c with
                       aspect := (width : ℚ) / (height : ℚ)
                       projectionVersion := c.projectionVersion + 1 } }
  | _, _ => s

/-- `initResizeObserver(containerElement)`: disconnects a previous observer
when one exists, then creates a fresh observer (whose callback runs
`updateRendererSize` on the captured element) and observes the element. -/
def initResizeObserver (s : ModuleState) : ModuleState :=
  let s1 :=
    match s.resizeObserver with
    | none => s
    | some ro => { s with resizeObserver := some { ro with connected := false } }
  { s1 with resizeObserver := some { connected := true } }

/-- `init(props, container)`: builds the scene (transparent background),
the 75° / 5:6 perspective camera at `props.cameraPosition`, the
antialiased alpha renderer whose canvas is appended to the container, the
damped orbit controls with distance bounds [0, 10], the half-intensity
ambient light and the full-intensity directional light at (5,5,5); then
starts the resize observer, initiates the model load, and runs the first
`animate` tick. -/
def init (props : propsClass) (container : HTMLElement) (s : ModuleState) :
    Except String ModuleState :=
  let sc0 : Scene := { background := none, children := [] }
  let cam : PerspectiveCamera :=
    { fov := 75, aspect := 5 / 6, near := 0.1, far := 1000
      position := props.cameraPosition, projectionVersion := 0 }
  let r : WebGLRenderer :=
    { antialias := true, alpha := true, width := 0, height := 0
      renders := 0, disposed := false, contextLost := false }
  let mount : HTMLElement := { container with childCount := container.childCount + 1 }
  let ct : OrbitControls :=
    { enableDamping := true, dampingFactor := 0.1, screenSpacePanning := false
      minDistance := 0, maxDistance := 10, target := ⟨0, 0, 0⟩
      updates := 0, disposed := false }
  let sc1 : Scene := { sc0 with children := sc0.children ++ [.ambientLight 0xffffff 0.5] }
  let sc2 : Scene :=
    { sc1 with children := sc1.children ++ [.directionalLight 0xffffff 1 ⟨5, 5, 5⟩] }
  let s1 : ModuleState :=
    { s with
      scene := some sc2, camera := some cam, renderer := some r
      controls := some ct, mount := some mount, canvasAttached := true }
  let s2 := initResizeObserver s1
  let s3 := loadModel props s2
  match animate s3 with
  | .error e => .error e
  | .ok (s4, _) => .ok s4

/-- `modelPathstate(newPath, oldPath, props)`: when `newPath` is truthy
(non-empty), differs from `oldPath`, and the scene handle is defined, it
clears the current model, initiates a load of `props.modelPath`, and — when
the camera and controls handles are both defined — resets the camera to
`props.cameraPosition` (applying the projection update) and the controls
target to the origin (running one controls update). Otherwise it does
nothing. -/
def modelPathstate (newPath oldPath : String) (props : propsClass)
    (s : ModuleState) : Except String ModuleState :=
  if newPath ≠ "" ∧ newPath ≠ oldPath ∧ s.scene.isSome = true then
    match clearCurrentModel s with
    | .error e => .error e
    | .ok s1 =>
      let s2 := loadModel props s1
      match s2.camera, s2.controls with
      | some c, some ct =>
        .ok { s2 with
              camera := some { c with
                               position := props.cameraPosition
                               projectionVersion := c.projectionVersion + 1 }
              controls := some { ct with target := ⟨0, 0, 0⟩, updates := ct.updates + 1 } }
      | _, _ => .ok s2
  else .ok s

/-- `allDestroyed`: disconnects the resize observer, clears the current
model, disposes the controls, disposes the renderer, forces loss of the
rendering context, removes the canvas from the mount, and finally sets the
`scene`, `camera`, `renderer`, `controls`, `model` and `mixer` handles to
`undefined`. The `resizeObserver` handle is not reset. -/
def allDestroyed (s : ModuleState) : Except String ModuleState :=
  let s1 :=
    match s.resizeObserver with
    | none => s
    | some ro => { s with resizeObserver := some { ro with connected := false } }
  match clearCurrentModel s1 with
  | .error e => .error e
  | .ok s2 =>
    let s3 :=
      match s2.controls with
      | none => s2
      | some ct => { s2 with controls := some { ct with disposed := true } }
    let s4 :=
      match s3.renderer with
      | none => s3
      | some r =>
        let t := { s3 with renderer := some { r with disposed := true, contextLost := true } }
        if t.canvasAttached then
          { t with
            canvasAttached := false
            mount := t.mount.map fun el : HTMLElement => { el with childCount := el.childCount - 1 } }
        else t
    .ok { s4 with
          scene := none, camera := none, renderer := none
          controls := none, model := none, mixer := none }

/-- States reachable from the uninitialized module by the public operations,
load completion, ticks, and resize events, following successful (non-throwing)
runs. -/
inductive Reachable : ModuleState → Prop where
  | initial : Reachable initialState
  | initStep {p c s s'} : Reachable s → init p c s = .ok s' → Reachable s'
  | pathStep {n o p s s'} : Reachable s → modelPathstate n o p s = .ok s' → Reachable s'
  | clearStep {s s'} : Reachable s → clearCurrentModel s = .ok s' → Reachable s'
  | destroyStep {s s'} : Reachable s → allDestroyed s = .ok s' → Reachable s'
  | loadStep {p g s s'} : Reachable s → loadComplete p g s = .ok s' → Reachable s'
  | animateStep {s s' b} : Reachable s → animate s = .ok (s', b) → Reachable s'
  | resizeStep {el s} : Reachable s → Reachable (updateRendererSize el s)

/-- The four handles that `init` creates and `allDestroyed` clears move in
lock step: all defined or all undefined. -/
def coreAligned (s : ModuleState) : Prop :=
  s.scene.isSome = s.camera.isSome ∧
  s.scene.isSome = s.renderer.isSome ∧
  s.scene.isSome = s.controls.isSome

/-- A sample configuration (the spec's concrete scenario). -/
def cfg0 : propsClass := ⟨⟨0, 0, 5⟩, "m.glb", 1, ⟨0, 0, 0⟩⟩

/-- A sample empty 800×600 mount element. -/
def el0 : HTMLElement := ⟨0, 800, 600⟩

/-- A sample decoded asset with two animation clips. -/
def gltf0 : GLTF := ⟨⟨7, ⟨1, 1, 1⟩, ⟨0, 0, 0⟩⟩, ["walk", "idle"]⟩

/-- A configuration whose model path is `"b.glb"`, for model replacement. -/
def cfgB : propsClass := ⟨⟨0, 0, 5⟩, "b.glb", 2, ⟨1, 0, 0⟩⟩

/-- The module state right after `init cfg0 el0` from the uninitialized
state (the model load still pending). -/
def sInit : ModuleState := (init cfg0 el0 initialState).toOption.getD initialState

/-- `sInit` after the pending load of `gltf0` resolves. -/
def sLoaded : ModuleState := (loadComplete cfg0 gltf0 sInit).toOption.getD initialState

/-- `sLoaded` after one `clearCurrentModel` call. -/
def sCleared : ModuleState := (clearCurrentModel sLoaded).toOption.getD initialState

/-- `sLoaded` after `allDestroyed`. -/
def sDestroyed : ModuleState := (allDestroyed sLoaded).toOption.getD initialState

/-- `sLoaded` after one further render-loop tick. -/
def sTicked : ModuleState := ((animate sLoaded).toOption.getD (initialState, false)).1

/-- `sLoaded` after `modelPathstate "b.glb" "a.glb" cfgB`. -/
def sSwapped : ModuleState :=
  (modelPathstate "b.glb" "a.glb" cfgB sLoaded).toOption.getD initialState

/-- Fields `clearCurrentModel` never changes (and the definedness it
preserves), whenever it returns successfully. -/
theorem clearCurrentModel_fields {s s' : ModuleState}
    (h : clearCurrentModel s = .ok s') :
    s'.camera = s.camera ∧ s'.renderer = s.renderer ∧ s'.controls = s.controls ∧
    s'.scene.isSome = s.scene.isSome ∧ s'.model = s.model ∧
    s'.mixer.isSome = s.mixer.isSome ∧ s'.resizeObserver = s.resizeObserver ∧
    s'.pendingLoads = s.pendingLoads ∧ s'.mount = s.mount ∧
    s'.canvasAttached = s.canvasAttached := by
  obtain ⟨sc, cam, r, ct, mdl, mx, ro, pl, mnt, ca⟩ := s
  cases mdl <;> cases mx <;> cases sc <;>
    (first
      | exact Except.noConfusion h
      | (injection h with h1; subst h1; simp))

/-- Fields a successful `animate` tick never changes, and the definedness
it preserves. -/
theorem animate_fields {s s' : ModuleState} {b : Bool}
    (h : animate s = .ok (s', b)) :
    s'.scene = s.scene ∧ s'.camera = s.camera ∧
    s'.controls.isSome = s.controls.isSome ∧
    s'.renderer.isSome = s.renderer.isSome ∧ s'.model = s.model ∧
    s'.mixer.isSome = s.mixer.isSome ∧ s'.resizeObserver = s.resizeObserver ∧
    s'.pendingLoads = s.pendingLoads ∧ s'.mount = s.mount ∧
    s'.canvasAttached = s.canvasAttached := by
  obtain ⟨sc, cam, r, ct, mdl, mx, ro, pl, mnt, ca⟩ := s
  cases ct <;> cases sc <;> cases cam <;> cases mx <;> cases r <;>
    (first
      | exact Except.noConfusion h
      | (injection h with h1; injection h1 with hs hb; subst hs; simp))

/-- Fields `updateRendererSize` never changes, and the definedness it
preserves. -/
theorem updateRendererSize_fields (el : HTMLElement) (s : ModuleState) :
    (updateRendererSize el s).scene = s.scene ∧
    (updateRendererSize el s).camera.isSome = s.camera.isSome ∧
    (updateRendererSize el s).renderer.isSome = s.renderer.isSome ∧
    (updateRendererSize el s).controls = s.controls ∧
    (updateRendererSize el s).model = s.model ∧
    (updateRendererSize el s).mixer = s.mixer ∧
    (updateRendererSize el s).resizeObserver = s.resizeObserver ∧
    (updateRendererSize el s).pendingLoads = s.pendingLoads ∧
    (updateRendererSize el s).mount = s.mount ∧
    (updateRendererSize el s).canvasAttached = s.canvasAttached := by
  obtain ⟨sc, cam, r, ct, mdl, mx, ro, pl, mnt, ca⟩ := s
  cases r <;> cases cam <;> simp [updateRendererSize]

/-- What a successful `allDestroyed` leaves behind: the six handles are
reset, the resize observer is disconnected but kept, loads are untouched,
and when a renderer existed its canvas is no longer attached. -/
theorem allDestroyed_fields {s s' : ModuleState}
    (h : allDestroyed s = .ok s') :
    s'.scene = none ∧ s'.camera = none ∧ s'.renderer = none ∧
    s'.controls = none ∧ s'.model = none ∧ s'.mixer = none ∧
    s'.resizeObserver =
      s.resizeObserver.map (fun ro : ResizeObserver => { ro with connected := false }) ∧
    s'.pendingLoads = s.pendingLoads ∧
    (s.renderer.isSome = true → s'.canvasAttached = false) := by
  obtain ⟨sc, cam, r, ct, mdl, mx, ro, pl, mnt, ca⟩ := s
  cases ro <;> cases mdl <;> cases mx <;> cases sc <;> cases ct <;> cases r <;> cases ca <;>
    (first
      | exact Except.noConfusion h
      | (injection h with h1; subst h1; simp))

/-- The whole result of `init`, for any prior state: fresh scene with the
two lights, fresh camera/renderer/controls after the first tick, observer
connected, load of `props.modelPath` pending, canvas appended. A stale
mixer from an earlier `init` is advanced by the first tick. -/
theorem init_eq (p : propsClass) (c : HTMLElement) (s : ModuleState) :
    init p c s = .ok
      { scene := some { background := none
                        children := [.ambientLight 0xffffff 0.5,
                                     .directionalLight 0xffffff 1 ⟨5, 5, 5⟩] }
        camera := some { fov := 75, aspect := 5 / 6, near := 0.1, far := 1000
                         position := p.cameraPosition, projectionVersion := 0 }
        renderer := some { antialias := true, alpha := true, width := 0, height := 0
                           renders := 1, disposed := false, contextLost := false }
        controls := some { enableDamping := true, dampingFactor := 0.1
                           screenSpacePanning := false, minDistance := 0
                           maxDistance := 10, target := ⟨0, 0, 0⟩
                           updates := 1, disposed := false }
        model := s.model
        mixer := s.mixer.map fun mx : AnimationMixer => { mx with time := mx.time + 0.016 }
        resizeObserver := some ⟨true⟩
        pendingLoads := s.pendingLoads ++ [p.modelPath]
        mount := some { c with childCount := c.childCount + 1 }
        canvasAttached := true } := by
  obtain ⟨sc, cam, r, ct, mdl, mx, ro, pl, mnt, ca⟩ := s
  cases mx <;> cases ro <;> simp [init, initResizeObserver, loadModel, animate]

/-- The whole result of the load-success callback when a scene exists. -/
theorem loadComplete_eq (p : propsClass) (g : GLTF) {s : ModuleState} {sc : Scene}
    (h : s.scene = some sc) :
    loadComplete p g s = .ok
      { s with
        model := some { g.scene with scale := ⟨p.scale, p.scale, p.scale⟩
                                     position := p.position }
        scene := some { sc with children := sc.children ++
          [.modelGroup { g.scene with scale := ⟨p.scale, p.scale, p.scale⟩
                                      position := p.position }] }
        mixer := some { rootId := g.scene.id, time := 0
                        actions := g.animations.map fun cl =>
                          { clip := cl, loop := .loopRepeat, playing := true } } } := by
  simp [loadComplete, h]

/-- `clearCurrentModel` with no model handle is the identity. -/
theorem clearCurrentModel_none {s : ModuleState} (h : s.model = none) :
    clearCurrentModel s = .ok s := by
  simp [clearCurrentModel, h]

/-- A successful `clearCurrentModel` lands on a fixed point: running it
again returns the very same state. -/
theorem clearCurrentModel_idem_aux {s s' : ModuleState}
    (h : clearCurrentModel s = .ok s') : clearCurrentModel s' = .ok s' := by
  obtain ⟨sc, cam, r, ct, mdl, mx, ro, pl, mnt, ca⟩ := s
  cases mdl with
  | none => injection h with h1; subst h1; simp [clearCurrentModel]
  | some m =>
    cases mx with
    | none =>
      cases sc with
      | none => exact Except.noConfusion h
      | some sc =>
        injection h with h1; subst h1
        simp [clearCurrentModel, Scene.removeGroup, List.filter_filter]
    | some mx =>
      cases sc with
      | none => exact Except.noConfusion h
      | some sc =>
        injection h with h1; subst h1
        have hf : ((fun a : AnimationAction => { a with playing := false }) ∘
            (fun a : AnimationAction => { a with playing := false })) =
            (fun a : AnimationAction => { a with playing := false }) :=
          funext fun a => rfl
        by_cases hr : mx.rootId == m.id <;>
          simp [clearCurrentModel, Scene.removeGroup, List.filter_filter,
                List.map_map, hr, hf]

/-- Removing a model subtree really removes it: the scene no longer has a
child with that identity. -/
theorem hasGroup_removeGroup (sc : Scene) (m : Group3D) :
    (sc.removeGroup m).hasGroup m.id = false := by
  simp only [Scene.removeGroup, Scene.hasGroup, List.any_filter]
  rw [List.any_eq_false]
  intro ob _
  cases ob <;> simp

/-- After a successful `clearCurrentModel` on a state that had a model, the
resulting scene has no child with that model's identity. -/
theorem clearCurrentModel_detached {s s' : ModuleState}
    (h : clearCurrentModel s = .ok s') :
    ∀ m : Group3D, s.model = some m → ∀ sc' : Scene, s'.scene = some sc' →
      sc'.hasGroup m.id = false := by
  obtain ⟨sc, cam, r, ct, mdl, mx, ro, pl, mnt, ca⟩ := s
  intro m hm sc' hsc'
  cases mdl with
  | none => exact Option.noConfusion hm
  | some m0 =>
    injection hm with hm0
    subst hm0
    cases mx <;> cases sc <;>
      first
        | exact Except.noConfusion h
        | (injection h with h1; subst h1; simp at hsc'; subst hsc';
           exact hasGroup_removeGroup _ _)

/-- When the guard of `modelPathstate` fails, the call returns the state
unchanged and throws nothing. -/
theorem modelPathstate_noop_aux {n o : String} {p : propsClass} {s : ModuleState}
    (h : n = "" ∨ n = o ∨ s.scene = none) :
    modelPathstate n o p s = .ok s := by
  have hguard : ¬(n ≠ "" ∧ n ≠ o ∧ s.scene.isSome = true) := by
    rcases h with h | h | h <;> simp [h]
  simp [modelPathstate, hguard]

/-- Definedness bookkeeping of a successful `modelPathstate` call. -/
theorem modelPathstate_fields {n o : String} {p : propsClass} {s s' : ModuleState}
    (h : modelPathstate n o p s = .ok s') :
    s'.scene.isSome = s.scene.isSome ∧ s'.camera.isSome = s.camera.isSome ∧
    s'.renderer = s.renderer ∧ s'.controls.isSome = s.controls.isSome ∧
    s'.resizeObserver = s.resizeObserver ∧ s'.mount = s.mount ∧
    s'.canvasAttached = s.canvasAttached ∧ s'.model = s.model ∧
    s'.mixer.isSome = s.mixer.isSome := by
  unfold modelPathstate at h
  split at h
  case isFalse => injection h with h1; subst h1; simp
  case isTrue hc =>
    cases hcc : clearCurrentModel s with
    | error e => rw [hcc] at h; exact Except.noConfusion h
    | ok s1 =>
      rw [hcc] at h
      obtain ⟨f1, f2, f3, f4, f5, f6, f7, f8, f9, f10⟩ := clearCurrentModel_fields hcc
      simp only [loadModel] at h
      split at h <;> (injection h with h1; subst h1; simp_all) <;>
        simp_all [← f1, ← f3]

/-- Definedness bookkeeping of a successful load completion. -/
theorem loadComplete_fields {p : propsClass} {g : GLTF} {s s' : ModuleState}
    (h : loadComplete p g s = .ok s') :
    s'.scene.isSome = s.scene.isSome ∧ s'.camera = s.camera ∧
    s'.renderer = s.renderer ∧ s'.controls = s.controls ∧
    s'.resizeObserver = s.resizeObserver ∧ s'.mount = s.mount ∧
    s'.canvasAttached = s.canvasAttached ∧ s'.pendingLoads = s.pendingLoads := by
  cases hsc : s.scene with
  | none => rw [loadComplete, hsc] at h; exact Except.noConfusion h
  | some sc =>
    rw [loadComplete_eq p g hsc] at h
    injection h with h1; subst h1; simp [hsc]

/-- A tick with any of the three guarded handles undefined returns the state
unchanged and schedules nothing. -/
theorem animate_noop {s : ModuleState}
    (h : s.controls = none ∨ s.scene = none ∨ s.camera = none) :
    animate s = .ok (s, false) := by
  obtain ⟨sc, cam, r, ct, mdl, mx, ro, pl, mnt, ca⟩ := s
  cases ct <;> cases sc <;> cases cam <;>
    first
      | (rcases h with h | h | h <;> exact Option.noConfusion h)
      | simp [animate]

/-- A tick with all guarded handles defined: reschedules, advances the
controls, advances the mixer (when present) by 0.016, renders. -/
theorem animate_run {s : ModuleState} {ct : OrbitControls} {sc : Scene}
    {cam : PerspectiveCamera} {r : WebGLRenderer}
    (hct : s.controls = some ct) (hsc : s.scene = some sc)
    (hcam : s.camera = some cam) (hr : s.renderer = some r) :
    animate s = .ok
      ({ s with
         controls := some { ct with updates := ct.updates + 1 }
         mixer := s.mixer.map fun mx : AnimationMixer =>
           { mx with time := mx.time + 0.016 }
         renderer := some { r with renders := r.renders + 1 } }, true) := by
  obtain ⟨sc0, cam0, r0, ct0, mdl, mx, ro, pl, mnt, ca⟩ := s
  simp only at hct hsc hcam hr
  subst hct hsc hcam hr
  cases mx <;> simp [animate]

/-- C3: a non-empty `newPath` different from `oldPath`, with a scene
defined, clears the current model, initiates a load of `props.modelPath`
(not of `newPath`), and — when camera and controls are defined — resets the
camera to `props.cameraPosition` and the controls target to the origin. -/
theorem modelPathstate_reloads_from_props
    (n o : String) (p : propsClass) (s s' : ModuleState)
    (hn : n ≠ "") (hno : n ≠ o) (hscene : s.scene.isSome = true)
    (hrun : modelPathstate n o p s = .ok s') :
    s'.pendingLoads = s.pendingLoads ++ [p.modelPath] ∧
    (∀ m : Group3D, s.model = some m → ∀ sc' : Scene, s'.scene = some sc' →
        sc'.hasGroup m.id = false) ∧
    (∀ cam : PerspectiveCamera, ∀ ct : OrbitControls,
        s.camera = some cam → s.controls = some ct →
        s'.camera = some { cam with position := p.cameraPosition
                                    projectionVersion := cam.projectionVersion + 1 } ∧
        s'.controls = some { ct with target := ⟨0, 0, 0⟩
                                     updates := ct.updates + 1 }) := by
  have hguard : n ≠ "" ∧ n ≠ o ∧ s.scene.isSome = true := ⟨hn, hno, hscene⟩
  unfold modelPathstate at hrun
  rw [if_pos hguard] at hrun
  cases hcc : clearCurrentModel s with
  | error e => rw [hcc] at hrun; exact Except.noConfusion hrun
  | ok s1 =>
    rw [hcc] at hrun
    obtain ⟨f1, f2, f3, f4, f5, f6, f7, f8, f9, f10⟩ := clearCurrentModel_fields hcc
    have hdet := clearCurrentModel_detached hcc
    simp only [loadModel] at hrun
    split at hrun <;> (injection hrun with h1; subst h1)
    · rename_i c1 ct1 hcam1 hct1
      refine ⟨by simp [f8], ?_, ?_⟩
      · intro m hm sc' hsc'
        exact hdet m hm sc' hsc'
      · intro cam ct hcam hct
        rw [f1, hcam] at hcam1
        rw [f3, hct] at hct1
        injection hcam1 with e1
        injection hct1 with e2
        subst e1
        subst e2
        exact ⟨rfl, rfl⟩
    · rename_i hnone
      refine ⟨by simp [f8], ?_, ?_⟩
      · intro m hm sc' hsc'
        exact hdet m hm sc' hsc'
      · intro cam ct hcam hct
        exact (hnone cam ct (f1.trans hcam) (f3.trans hct)).elim

/-- C1: `init` yields the 75°, 5:6 camera at `props.cameraPosition`, a
scene holding exactly the two fixed lights (ambient 0.5, directional 1 at
(5,5,5)), and exactly one drawable surface appended to an initially empty
container (child count 0 → 1), all before the pending load resolves. -/
theorem init_spec_before_load (p : propsClass) (c : HTMLElement)
    (s s' : ModuleState) (hc : c.childCount = 0)
    (hrun : init p c s = .ok s') :
    s'.camera = some { fov := 75, aspect := 5 / 6, near := 0.1, far := 1000
                       position := p.cameraPosition, projectionVersion := 0 } ∧
    s'.scene = some { background := none
                      children := [.ambientLight 0xffffff 0.5,
                                   .directionalLight 0xffffff 1 ⟨5, 5, 5⟩] } ∧
    s'.mount = some { c with childCount := 1 } ∧
    s'.canvasAttached = true ∧
    s'.pendingLoads = s.pendingLoads ++ [p.modelPath] := by
  rw [init_eq] at hrun
  injection hrun with h1
  subst h1
  exact ⟨rfl, rfl, by rw [hc], rfl, rfl⟩

/-- C1 witness: the spec's concrete scenario, evaluated. -/
theorem init_spec_before_load_witness :
    el0.childCount = 0 ∧ init cfg0 el0 initialState = .ok sInit ∧
    (sInit.camera = some { fov := 75, aspect := 5 / 6, near := 0.1, far := 1000
                           position := cfg0.cameraPosition, projectionVersion := 0 } ∧
     sInit.scene = some { background := none
                          children := [.ambientLight 0xffffff 0.5,
                                       .directionalLight 0xffffff 1 ⟨5, 5, 5⟩] } ∧
     sInit.mount = some { el0 with childCount := 1 } ∧
     sInit.canvasAttached = true ∧
     sInit.pendingLoads = initialState.pendingLoads ++ [cfg0.modelPath]) :=
  ⟨rfl, rfl, init_spec_before_load cfg0 el0 initialState sInit rfl rfl⟩

/-- C2 counterexample: after `allDestroyed` returns, the six handles that
its last statements assign are undefined — but the `resizeObserver` handle
is still defined (merely disconnected), so not every process-wide handle is
cleared to the uninitialized sentinel. -/
theorem allDestroyed_keeps_resizeObserver_handle :
    allDestroyed sLoaded = .ok sDestroyed ∧
    sDestroyed.scene = none ∧ sDestroyed.camera = none ∧
    sDestroyed.resizeObserver = some { connected := false } :=
  ⟨rfl, rfl, rfl, rfl⟩

/-- C2 (amended): `allDestroyed` clears the scene, camera, renderer,
controller, model and mixer handles to undefined, disconnects (but keeps)
the resize-observer handle, and detaches the drawable surface whenever a
renderer existed. -/
theorem allDestroyed_clears_core_handles (s s' : ModuleState)
    (h : allDestroyed s = .ok s') :
    s'.scene = none ∧ s'.camera = none ∧ s'.renderer = none ∧
    s'.controls = none ∧ s'.model = none ∧ s'.mixer = none ∧
    s'.resizeObserver = s.resizeObserver.map
      (fun ro : ResizeObserver => { ro with connected := false }) ∧
    (s.renderer.isSome = true → s'.canvasAttached = false) := by
  obtain ⟨f1, f2, f3, f4, f5, f6, f7, _, f9⟩ := allDestroyed_fields h
  exact ⟨f1, f2, f3, f4, f5, f6, f7, f9⟩

/-- C2 witness: teardown of the fully loaded sample state. -/
theorem allDestroyed_clears_core_handles_witness :
    allDestroyed sLoaded = .ok sDestroyed ∧ sDestroyed.controls = none ∧
    sDestroyed.model = none ∧ sDestroyed.mixer = none ∧
    sDestroyed.canvasAttached = false := by
  have h := allDestroyed_clears_core_handles sLoaded sDestroyed rfl
  exact ⟨rfl, h.2.2.2.1, h.2.2.2.2.1, h.2.2.2.2.2.1, h.2.2.2.2.2.2.2 rfl⟩

/-- C3 witness: swapping from `"a.glb"` to `"b.glb"` with `cfgB` queues a
load of `cfgB.modelPath` and resets the camera. -/
theorem modelPathstate_reloads_from_props_witness :
    ("b.glb" : String) ≠ "" ∧ ("b.glb" : String) ≠ "a.glb" ∧
    sLoaded.scene.isSome = true ∧
    sSwapped.pendingLoads = ["m.glb", "b.glb"] ∧
    sSwapped.camera = some { fov := 75, aspect := 5 / 6, near := 0.1, far := 1000
                             position := cfgB.cameraPosition, projectionVersion := 1 } := by
  have h := modelPathstate_reloads_from_props "b.glb" "a.glb" cfgB sLoaded sSwapped
    (by decide) (by decide) rfl rfl
  exact ⟨by decide, by decide, rfl, h.1.trans rfl, (h.2.2 _ _ rfl rfl).1⟩

/-- C4: `clearCurrentModel` is idempotent — a successful call lands on a
state that the next call returns unchanged, the resulting scene has no
child with the cleared model's identity, and with no model loaded the call
is a safe no-op. -/
theorem clearCurrentModel_idempotent (s s' : ModuleState) :
    (clearCurrentModel s = .ok s' → clearCurrentModel s' = .ok s') ∧
    (clearCurrentModel s = .ok s' → ∀ m : Group3D, s.model = some m →
        ∀ sc' : Scene, s'.scene = some sc' → sc'.hasGroup m.id = false) ∧
    (s.model = none → clearCurrentModel s = .ok s) :=
  ⟨clearCurrentModel_idem_aux, fun h => clearCurrentModel_detached h,
   clearCurrentModel_none⟩

/-- C4 witness: the loaded sample state and the uninitialized state. -/
theorem clearCurrentModel_idempotent_witness :
    clearCurrentModel sLoaded = .ok sCleared ∧
    clearCurrentModel sCleared = .ok sCleared ∧
    clearCurrentModel initialState = .ok initialState := by
  refine ⟨rfl, ?_, ?_⟩
  · exact (clearCurrentModel_idempotent sLoaded sCleared).1 rfl
  · exact (clearCurrentModel_idempotent initialState initialState).2.2 rfl

/-- C5: a tick with controller, scene, or camera undefined is a no-op that
does not reschedule; with all handles defined it reschedules, advances the
controller integration, advances the mixer by the fixed 0.016 step, and
renders; and after `allDestroyed` a tick is a non-rescheduling no-op, so
the loop self-terminates. -/
theorem animate_tick_spec (s t t' : ModuleState) :
    ((s.controls = none ∨ s.scene = none ∨ s.camera = none) →
        animate s = .ok (s, false)) ∧
    (∀ ct : OrbitControls, ∀ sc : Scene, ∀ cam : PerspectiveCamera,
        ∀ r : WebGLRenderer,
        s.controls = some ct → s.scene = some sc → s.camera = some cam →
        s.renderer = some r →
        animate s = .ok
          ({ s with
             controls := some { ct with updates := ct.updates + 1 }
             mixer := s.mixer.map fun mx : AnimationMixer =>
               { mx with time := mx.time + 0.016 }
             renderer := some { r with renders := r.renders + 1 } }, true)) ∧
    (allDestroyed t = .ok t' → animate t' = .ok (t', false)) := by
  refine ⟨animate_noop, ?_, ?_⟩
  · intro ct sc cam r hct hsc hcam hr
    exact animate_run hct hsc hcam hr
  · intro h
    obtain ⟨_, _, _, f4, _⟩ := allDestroyed_fields h
    exact animate_noop (Or.inl f4)

/-- C5 witness: a tick on the uninitialized state, on the loaded state,
and on the torn-down state. -/
theorem animate_tick_spec_witness :
    animate initialState = .ok (initialState, false) ∧
    animate sLoaded = .ok (sTicked, true) ∧
    animate sDestroyed = .ok (sDestroyed, false) := by
  refine ⟨?_, ?_, ?_⟩
  · exact (animate_tick_spec initialState initialState initialState).1 (Or.inl rfl)
  · exact ((animate_tick_spec sLoaded sLoaded sLoaded).2.1 _ _ _ _ rfl rfl rfl rfl).trans
      (by rfl)
  · exact (animate_tick_spec sDestroyed sLoaded sDestroyed).2.2 rfl

/-- C6: with renderer and camera defined, a resize sets the drawable
surface to the element's content box, sets the aspect ratio to exactly
width/height, and applies the projection update; with either handle
undefined it is a silent no-op. -/
theorem updateRendererSize_spec (el : HTMLElement) (s : ModuleState) :
    (∀ r : WebGLRenderer, ∀ c : PerspectiveCamera,
        s.renderer = some r → s.camera = some c → 0 < el.clientHeight →
        updateRendererSize el s =
          { s with
            renderer := some { r with width := el.clientWidth
                                      height := el.clientHeight }
            camera := some { c with
                             aspect := (el.clientWidth : ℚ) / (el.clientHeight : ℚ)
                             projectionVersion := c.projectionVersion + 1 } }) ∧
    ((s.renderer = none ∨ s.camera = none) → updateRendererSize el s = s) := by
  constructor
  · intro r c hr hc hpos
    obtain ⟨sc0, cam0, r0, ct0, mdl, mx, ro, pl, mnt, ca⟩ := s
    simp only at hr hc
    subst hr hc
    simp [updateRendererSize]
  · intro h
    obtain ⟨sc0, cam0, r0, ct0, mdl, mx, ro, pl, mnt, ca⟩ := s
    rcases h with h | h <;> simp only at h <;> subst h
    · simp [updateRendererSize]
    · cases r0 <;> simp [updateRendererSize]

/-- C6 witness: resizing the freshly initialized state to 800×600. -/
theorem updateRendererSize_spec_witness :
    0 < el0.clientHeight ∧
    updateRendererSize el0 sInit =
      { sInit with
        renderer := some { antialias := true, alpha := true, width := 800
                           height := 600, renders := 1, disposed := false
                           contextLost := false }
        camera := some { fov := 75, aspect := (800 : ℚ) / 600, near := 0.1
                         far := 1000, position := cfg0.cameraPosition
                         projectionVersion := 1 } } := by
  refine ⟨by decide, ?_⟩
  exact ((updateRendererSize_spec el0 sInit).1 _ _ rfl rfl (by decide)).trans (by rfl)

/-- C7: on successful decode the subtree is scaled uniformly by
`props.scale`, moved to `props.position`, attached to the scene, and a
fresh mixer bound to it starts every embedded clip in the default looping
mode. -/
theorem loadComplete_attaches_and_plays (p : propsClass) (g : GLTF)
    (s : ModuleState) (sc : Scene) (h : s.scene = some sc) :
    loadComplete p g s = .ok
      { s with
        model := some { g.scene with scale := ⟨p.scale, p.scale, p.scale⟩
                                     position := p.position }
        scene := some { sc with children := sc.children ++
          [.modelGroup { g.scene with scale := ⟨p.scale, p.scale, p.scale⟩
                                      position := p.position }] }
        mixer := some { rootId := g.scene.id, time := 0
                        actions := g.animations.map fun cl =>
                          { clip := cl, loop := .loopRepeat, playing := true } } } :=
  loadComplete_eq p g h

/-- C7 witness: the sample load into the freshly initialized state. -/
theorem loadComplete_attaches_and_plays_witness :
    sInit.scene.isSome = true ∧ loadComplete cfg0 gltf0 sInit = .ok sLoaded := by
  refine ⟨rfl, ?_⟩
  exact (loadComplete_attaches_and_plays cfg0 gltf0 sInit _ rfl).trans (by rfl)

/-- C8 counterexample: right after `init` (a reachable state that is not a
teardown), the scene handle is defined while the model and mixer handles
are still undefined, so the handles are neither all-defined nor
all-undefined. -/
theorem reachable_partial_handle_state :
    Reachable sInit ∧ sInit.scene.isSome = true ∧
    sInit.model.isSome = false ∧ sInit.mixer.isSome = false :=
  ⟨Reachable.initStep Reachable.initial rfl, rfl, rfl, rfl⟩

/-- C8 (amended): in every reachable state the scene, camera, renderer and
controller handles are all defined or all undefined together; the model
and mixer handles may lag behind (undefined until a load completes), and
the resize-observer handle survives teardown. -/
theorem reachable_core_handles_aligned {s : ModuleState} (h : Reachable s) :
    coreAligned s := by
  induction h with
  | initial => simp [initialState, coreAligned]
  | initStep _ hstep _ =>
    rw [init_eq] at hstep
    injection hstep with h1; subst h1; simp [coreAligned]
  | pathStep _ hstep ih =>
    obtain ⟨f1, f2, f3, f4, _⟩ := modelPathstate_fields hstep
    obtain ⟨g1, g2, g3⟩ := ih
    exact ⟨by rw [f1, f2, g1], by rw [f1, f3, g2], by rw [f1, f4, g3]⟩
  | clearStep _ hstep ih =>
    obtain ⟨f1, f2, f3, f4, _⟩ := clearCurrentModel_fields hstep
    obtain ⟨g1, g2, g3⟩ := ih
    exact ⟨by rw [f1, f4, g1], by rw [f2, f4, g2], by rw [f3, f4, g3]⟩
  | destroyStep _ hstep _ =>
    obtain ⟨f1, f2, f3, f4, _⟩ := allDestroyed_fields hstep
    exact ⟨by simp [f1, f2], by simp [f1, f3], by simp [f1, f4]⟩
  | loadStep _ hstep ih =>
    obtain ⟨f1, f2, f3, f4, _⟩ := loadComplete_fields hstep
    obtain ⟨g1, g2, g3⟩ := ih
    exact ⟨by rw [f1, f2, g1], by rw [f1, f3, g2], by rw [f1, f4, g3]⟩
  | animateStep _ hstep ih =>
    obtain ⟨f1, f2, f3, f4, _⟩ := animate_fields hstep
    obtain ⟨g1, g2, g3⟩ := ih
    exact ⟨by rw [f1, f2, g1], by rw [f1, f4, g2], by rw [f1, f3, g3]⟩
  | resizeStep hr ih =>
    rename_i el t
    obtain ⟨f1, f2, f3, f4, _⟩ := updateRendererSize_fields el t
    obtain ⟨g1, g2, g3⟩ := ih
    exact ⟨by rw [f1, f2, g1], by rw [f1, f3, g2], by rw [f1, f4, g3]⟩

/-- C8 witness: the alignment holds at the concrete post-`init` state. -/
theorem reachable_core_handles_aligned_witness : coreAligned sInit :=
  reachable_core_handles_aligned (Reachable.initStep Reachable.initial rfl)

/-- C9: `clearCurrentModel` leaves the model handle pointing at the
now-detached subtree and keeps the mixer handle defined; only
`allDestroyed` resets both to undefined. -/
theorem clearCurrentModel_keeps_handles (s s' t t' : ModuleState) :
    (clearCurrentModel s = .ok s' →
        s'.model = s.model ∧ s'.mixer.isSome = s.mixer.isSome) ∧
    (allDestroyed t = .ok t' → t'.model = none ∧ t'.mixer = none) := by
  constructor
  · intro h
    obtain ⟨_, _, _, _, f5, f6, _⟩ := clearCurrentModel_fields h
    exact ⟨f5, f6⟩
  · intro h
    obtain ⟨_, _, _, _, f5, f6, _⟩ := allDestroyed_fields h
    exact ⟨f5, f6⟩

/-- C9 witness: clearing the loaded sample keeps the handles; destroying
it resets them. -/
theorem clearCurrentModel_keeps_handles_witness :
    (sCleared.model = sLoaded.model ∧
     sCleared.mixer.isSome = sLoaded.mixer.isSome) ∧
    (sDestroyed.model = none ∧ sDestroyed.mixer = none) := by
  refine ⟨?_, ?_⟩
  · exact (clearCurrentModel_keeps_handles sLoaded sCleared sLoaded sDestroyed).1 rfl
  · exact (clearCurrentModel_keeps_handles sLoaded sCleared sLoaded sDestroyed).2 rfl

/-- C10: with an empty `newPath`, an unchanged path, or an undefined scene
handle, `modelPathstate` returns the state unchanged — no load is
initiated and nothing is thrown. -/
theorem modelPathstate_silent_noop (n o : String) (p : propsClass)
    (s : ModuleState) (h : n = "" ∨ n = o ∨ s.scene = none) :
    modelPathstate n o p s = .ok s :=
  modelPathstate_noop_aux h

/-- C10 witness: the three guard failures on concrete states. -/
theorem modelPathstate_silent_noop_witness :
    modelPathstate "" "a.glb" cfg0 sLoaded = .ok sLoaded ∧
    modelPathstate "m.glb" "m.glb" cfg0 sLoaded = .ok sLoaded ∧
    modelPathstate "b.glb" "a.glb" cfg0 initialState = .ok initialState := by
  refine ⟨?_, ?_, ?_⟩
  · exact modelPathstate_silent_noop "" "a.glb" cfg0 sLoaded (Or.inl rfl)
  · exact modelPathstate_silent_noop "m.glb" "m.glb" cfg0 sLoaded (Or.inr (Or.inl rfl))
  · exact modelPathstate_silent_noop "b.glb" "a.glb" cfg0 initialState
      (Or.inr (Or.inr rfl))
